import Mathlib

/-!
# Verification of the Steam OpenID 2.0 provider core

A shallow embedding of the Steam next-auth provider (the `verifyAssertion`
function, the `Steam` adapter constructor and its `token` / `userinfo`
operations) together with proofs about it.

Modelling conventions:

* The query string of a URL is modelled post-parsing, as an association list of
  `(key, value)` pairs in order (`UrlQuery`); `URLSearchParams.get` returns
  the first value for a key (`getParam`), or `none` when absent.
* A JavaScript plain object `Record<string, string>` is modelled as an
  association list built by successive assignments (`recordSet`): assigning
  an existing key updates its value in place, a new key is appended.  The
  object-literal spread `\x7b fixed..., ...tp \x7d` is `spreadInto`.
* `JS` falsiness of strings: `url` absent or `""` is modelled as `none`.
* Network effects are made explicit: `verifyAssertion` is parametrised by
  the IdP response body (the outcome of the `fetch`, assuming transport
  success) and returns, besides its result, the verification request it
  POSTed (`none` when no request was issued).  The adapter constructor
  returns the (always empty) list of HTTP requests it issues.
* JavaScript `split` on a comma is `splitComma`; note that
  `splitComma "" = [""]`, exactly as in JavaScript.
* The two regular expressions of the source are compiled by hand:
  `matchIsValid` decides an unanchored case-insensitive occurrence of
  `is_valid\s*:\s*true` (the regex has no `u` flag, so `/i` folds ASCII
  letters only, which `Char.toLower` does), and `matchIdentifier` is the
  anchored `^https?://steamcommunity.com/openid/id/(\d+)$`, returning the
  digits captured by the single group.
-/

/-- A parsed query string / parameter map: ordered `(key, value)` pairs. -/
abbrev UrlQuery := List (String × String)

/-- `URLSearchParams.get`: first value stored under `key`, if any. -/
def getParam : UrlQuery → String → Option String
  | [], _ => none
  | (k, w) :: r, key => if k = key then some w else getParam r key

/-- JavaScript object property assignment `o[k] = w`: update the first
entry with key `k` in place, or append a fresh entry. -/
def recordSet : UrlQuery → String → String → UrlQuery
  | [], k, w => [(k, w)]
  | (k', w') :: r, k, w =>
      if k' = k then (k, w) :: r else (k', w') :: recordSet r k w

/-- Object-literal spread `\x7b ...base, ...extra \x7d`: assign every entry of
`extra`, in order, on top of `base`. -/
def spreadInto (base extra : UrlQuery) : UrlQuery :=
  extra.foldl (fun acc p => recordSet acc p.1 p.2) base

/-- JavaScript `split` on a comma, accumulator-style: `acc` holds the current
segment reversed.  `splitCommaAux [] acc = [acc.reverse]`, so the split of
the empty string is `[""]`, as in JavaScript. -/
def splitCommaAux : List Char → List Char → List String
  | [], acc => [String.mk acc.reverse]
  | c :: cs, acc =>
      if c = ',' then String.mk acc.reverse :: splitCommaAux cs []
      else splitCommaAux cs (c :: acc)

/-- JavaScript `split` of a string on commas. -/
def splitComma (s : String) : List String := splitCommaAux s.data []

/-- The character class `\s` of a JavaScript regular expression
(ECMA-262 WhiteSpace ∪ LineTerminator). -/
def jsSpace (c : Char) : Bool :=
  c = ' ' || c = '\t' || c = '\n' || c = '\r' ||
  c.val = 0x0b || c.val = 0x0c || c.val = 0xa0 || c.val = 0x1680 ||
  (0x2000 ≤ c.val && c.val ≤ 0x200a) ||
  c.val = 0x2028 || c.val = 0x2029 || c.val = 0x202f ||
  c.val = 0x205f || c.val = 0x3000 || c.val = 0xfeff

/-- Match a literal (case-sensitive): `dropLit pat cs` returns the rest of
`cs` after the pattern `pat`, or `none` when `cs` does not start with it. -/
def dropLit : List Char → List Char → Option (List Char)
  | [], cs => some cs
  | _ :: _, [] => none
  | p :: ps, c :: cs => if c = p then dropLit ps cs else none

/-- Match a literal ASCII-case-insensitively (the `/i` flag of a regex
without the `u` flag). -/
def dropLitCI : List Char → List Char → Option (List Char)
  | [], cs => some cs
  | _ :: _, [] => none
  | p :: ps, c :: cs => if c.toLower = p.toLower then dropLitCI ps cs else none

/-- Does `is_valid\s*:\s*true` (case-insensitive) match at the start of
`cs`?  Greedy `\s*` is deterministic here because neither `:` nor `t` is a
space character. -/
def isValidAt (cs : List Char) : Bool :=
  match dropLitCI "is_valid".data cs with
  | none => false
  | some r1 =>
    match r1.dropWhile jsSpace with
    | ':' :: r2 =>
      match dropLitCI "true".data (r2.dropWhile jsSpace) with
      | some _ => true
      | none => false
    | _ => false

/-- `result.match(/is_valid\s*:\s*true/i)` viewed as a Boolean: an
unanchored search, i.e. a match at some suffix. -/
def matchIsValid (body : String) : Bool := body.data.tails.any isValidAt

/-- The `s?` of `https?`: consume one optional `s`.  Deterministic because
the following literal starts with `:`, never `s`. -/
def dropSOpt : List Char → List Char
  | 's' :: r1 => r1
  | r1 => r1

/-- `claimed.match(/^https?:\/\/steamcommunity\.com\/openid\/id\/(\d+)$/)`,
returning the digits captured by the group (`matches[1]`), or `none` when
the whole string does not match. -/
def matchIdentifier (s : String) : Option String :=
  match dropLit "http".data s.data with
  | none => none
  | some r =>
    match dropLit "://steamcommunity.com/openid/id/".data (dropSOpt r) with
    | none => none
    | some ds => if !ds.isEmpty && ds.all Char.isDigit then some (String.mk ds) else none

/-- `searchParams.get("openid.signed") || ""` of the callback, i.e. the signed
field list of the callback, defaulting to the empty string. -/
def signedOf (cb : UrlQuery) : String := (getParam cb "openid.signed").getD ""

/-- The `token_params` record of `verifyAssertion`: for every name `val` in
the comma-split signed list, assign
`openid.` + name is assigned the callback value for that key, or the
empty string when absent. -/
def mkTokenParams (cb : UrlQuery) (signed : String) : UrlQuery :=
  (splitComma signed).foldl
    (fun acc val =>
      recordSet acc ("openid." ++ val) ((getParam cb ("openid." ++ val)).getD ""))
    []

/-- The five fixed entries of the `URLSearchParams` object literal of
`verifyAssertion`, in source order. -/
def baseVerifyParams (cb : UrlQuery) (signed : String) : UrlQuery :=
  [("openid.assoc_handle", (getParam cb "openid.assoc_handle").getD ""),
   ("openid.signed", signed),
   ("openid.sig", (getParam cb "openid.sig").getD ""),
   ("openid.ns", "http://specs.openid.net/auth/2.0"),
   ("openid.mode", "check_authentication")]

/-- `token_url_params`: the outgoing verification request, the object
literal of the five fixed entries with `...token_params` spread after
them. -/
def mkVerificationRequest (cb : UrlQuery) : UrlQuery :=
  let signed := signedOf cb
  spreadInto (baseVerifyParams cb signed) (mkTokenParams cb signed)

/-- Outcome of one run of `verifyAssertion`: the verification request that
was POSTed to the IdP (`none` when the function returned before the
`fetch`), and the returned value (`none` is JavaScript `null`). -/
structure VerifyOutcome where
  posted : Option UrlQuery
  result : Option String
  deriving Repr, DecidableEq

/-- `verifyAssertion(url)`.  The callback URL is `none` when `url` is
absent or the empty string (`if (!url) return null`); otherwise it is the
parsed query of the callback.  `idpBody` is the text of the IdP response
to the verification POST. -/
def verifyAssertion (url : Option UrlQuery) (idpBody : String) : VerifyOutcome :=
  match url with
  | none => ⟨none, none⟩
  | some cb =>
    let vreq := mkVerificationRequest cb
    let ident :=
      if matchIsValid idpBody then
        match getParam vreq "openid.claimed_id" with
        | some claimed => matchIdentifier claimed
        | none => none
      else none
    ⟨some vreq, ident⟩

/-- The errors thrown by the provider, by their source messages:
`missingCallback` is "No URL found in request object", `unauthenticated`
is "Unauthenticated", `missingCredential` is "Steam API key is missing". -/
inductive AuthError where
  | missingCallback
  | unauthenticated
  | missingCredential
  deriving Repr, DecidableEq

/-- The `TokenSet` built by the `token.request` operation. -/
structure TokenSet where
  id_token : String
  access_token : String
  steamId : String
  deriving Repr, DecidableEq

/-- The `token.request` operation of the adapter.  `reqUrl` is the request URL
(`none` when `!req.url`), `idpBody` the IdP verification response, and
`u1`, `u2` the two freshly generated `uuidv4()` values.  Besides the
result it returns the verification request POSTed, if any. -/
def tokenRequest (reqUrl : Option UrlQuery) (idpBody : String) (u1 u2 : String) :
    Except AuthError TokenSet × Option UrlQuery :=
  match reqUrl with
  | none => (.error .missingCallback, none)
  | some cb =>
    let v := verifyAssertion (some cb) idpBody
    match v.result with
    | none => (.error .unauthenticated, v.posted)
    | some ident => (.ok ⟨u1, u2, ident⟩, v.posted)

def PROVIDER_NAME : String := "Steam"

def PROVIDER_ID : String := "steam"

/-- `getAuthorizationParams(redirect, realm)`: endpoint URL and the fixed
OpenID 2.0 checkid_setup parameter set. -/
def getAuthorizationParams (redirect realm : String) : String × UrlQuery :=
  ("https://steamcommunity.com/openid/login",
   [("openid.mode", "checkid_setup"),
    ("openid.ns", "http://specs.openid.net/auth/2.0"),
    ("openid.identity", "http://specs.openid.net/auth/2.0/identifier_select"),
    ("openid.claimed_id", "http://specs.openid.net/auth/2.0/identifier_select"),
    ("openid.return_to", redirect),
    ("openid.realm", realm)])

/-- The already-parsed configured callback URL (`new URL(options.callbackUrl)`):
its `href` and its `origin`. -/
structure UrlParts where
  href : String
  origin : String
  deriving Repr, DecidableEq

/-- The static part of the provider object returned by `Steam(...)`. -/
structure ProviderConfig where
  authorizationUrl : String
  authorizationParams : UrlQuery
  id : String
  name : String
  clientId : String
  deriving Repr, DecidableEq

/-- The `Steam` adapter constructor.  `clientSecret` is `none` when the
option is absent (JS `undefined`); the check is
`!options.clientSecret || options.clientSecret.length < 1`.  The second
component is the list of HTTP requests issued during construction: the
constructor body performs none, so it is always `[]`. -/
def SteamConstruct (callbackUrl : UrlParts) (clientSecret : Option String) :
    Except AuthError ProviderConfig × List UrlQuery :=
  let realm := callbackUrl.origin
  let returnTo := callbackUrl.href ++ "/" ++ PROVIDER_ID
  match clientSecret with
  | none => (.error .missingCredential, [])
  | some s =>
    if s = "" || s.length < 1 then
      (.error .missingCredential, [])
    else
      let a := getAuthorizationParams returnTo realm
      (.ok { authorizationUrl := a.1, authorizationParams := a.2,
             id := PROVIDER_ID, name := PROVIDER_NAME, clientId := PROVIDER_ID }, [])

/-- One entry of the `players` array of the profile API. -/
structure SteamUserProfile where
  steamid : String
  personaname : String
  avatarfull : String
  personastate : Int
  communityvisibilitystate : Int
  timecreated : Int
  deriving Repr, DecidableEq

/-- The parsed JSON body of the profile API response,
`data.response`: `\x7b players: [...] \x7d`. -/
structure PlayersResponse where
  players : List SteamUserProfile
  deriving Repr, DecidableEq

/-- The `userinfo.request` operation of the adapter, given the parsed response
of the profile API `fetch`.  `data.response.players[0]` is `players.head?`
(JavaScript indexing past the end yields `undefined`, here `none`, not an
error).  The second component is the query string of the GET it issued. -/
def userinfoRequest (clientSecret steamId : String) (resp : PlayersResponse) :
    Option SteamUserProfile × UrlQuery :=
  (resp.players.head?, [("key", clientSecret), ("steamids", steamId)])

/-! ## Lookup lemmas -/

theorem getParam_recordSet (r : UrlQuery) (k w key : String) :
    getParam (recordSet r k w) key = if k = key then some w else getParam r key := by
  induction r with
  | nil => simp [recordSet, getParam]
  | cons p r ih =>
    obtain ⟨k', w'⟩ := p
    by_cases h1 : k' = k
    · subst h1
      by_cases h2 : k' = key <;> simp [recordSet, getParam, h2]
    · by_cases h2 : k' = key
      · subst h2
        have hk : ¬ k = k' := fun h => h1 h.symm
        simp [recordSet, getParam, h1, hk]
      · simp [recordSet, getParam, h1, h2, ih]

theorem getParam_isSome_iff (l : UrlQuery) (key : String) :
    (getParam l key).isSome ↔ ∃ p ∈ l, p.1 = key := by
  induction l with
  | nil => simp [getParam]
  | cons p r ih =>
    obtain ⟨k, w⟩ := p
    by_cases h : k = key <;> simp [getParam, h, ih]

theorem mem_recordSet {p : String × String} {r : UrlQuery} {k w : String}
    (h : p ∈ recordSet r k w) : p = (k, w) ∨ p ∈ r := by
  induction r with
  | nil => simp [recordSet] at h; simp [h]
  | cons q r ih =>
    obtain ⟨k', w'⟩ := q
    by_cases h1 : k' = k
    · simp [recordSet, h1] at h
      rcases h with h | h
      · exact Or.inl h
      · exact Or.inr (List.mem_cons_of_mem _ h)
    · simp [recordSet, h1] at h
      rcases h with h | h
      · exact Or.inr (by simp [h])
      · rcases ih h with h2 | h2
        · exact Or.inl h2
        · exact Or.inr (List.mem_cons_of_mem _ h2)

/-- Characterisation of the fold that builds `token_params`: every name in
the list stores the callback value for its key (or the empty string);
values depend on the key only, so duplicates are harmless. -/
theorem getParam_copyFold (cb : UrlQuery) (L : List String) (r : UrlQuery) (key : String) :
    getParam
      (L.foldl (fun acc val =>
        recordSet acc ("openid." ++ val) ((getParam cb ("openid." ++ val)).getD "")) r)
      key =
    if ∃ n ∈ L, "openid." ++ n = key then some ((getParam cb key).getD "")
    else getParam r key := by
  induction L generalizing r with
  | nil => simp
  | cons a L ih =>
    simp only [List.foldl_cons]
    rw [ih]
    by_cases hL : ∃ n ∈ L, "openid." ++ n = key
    · rw [if_pos hL, if_pos (hL.imp fun n hn => ⟨List.mem_cons_of_mem a hn.1, hn.2⟩)]
    · rw [if_neg hL, getParam_recordSet]
      by_cases ha : "openid." ++ a = key
      · rw [if_pos ha, if_pos ⟨a, List.mem_cons_self a L, ha⟩, ha]
      · have hx : ¬ ∃ n ∈ a :: L, "openid." ++ n = key := by
          rintro ⟨n, hn, he⟩
          rcases List.mem_cons.mp hn with rfl | hmem
          · exact ha he
          · exact hL ⟨n, hmem, he⟩
        rw [if_neg ha, if_neg hx]

theorem getParam_mkTokenParams (cb : UrlQuery) (signed : String) (key : String) :
    getParam (mkTokenParams cb signed) key =
      if ∃ n ∈ splitComma signed, "openid." ++ n = key
      then some ((getParam cb key).getD "") else none := by
  rw [mkTokenParams, getParam_copyFold]
  simp [getParam]

theorem mkTokenParams_val (cb : UrlQuery) (signed : String) :
    ∀ p ∈ mkTokenParams cb signed, p.2 = (getParam cb p.1).getD "" := by
  rw [mkTokenParams]
  generalize splitComma signed = L
  have main : ∀ (L : List String) (r : UrlQuery),
      (∀ p ∈ r, p.2 = (getParam cb p.1).getD "") →
      ∀ p ∈ L.foldl (fun acc val =>
        recordSet acc ("openid." ++ val) ((getParam cb ("openid." ++ val)).getD "")) r,
        p.2 = (getParam cb p.1).getD "" := by
    intro L
    induction L with
    | nil => intro r hr; simpa using hr
    | cons a L ih =>
      intro r hr
      simp only [List.foldl_cons]
      apply ih
      intro p hp
      rcases mem_recordSet hp with h | h
      · simp [h]
      · exact hr p h
  exact main L [] (by simp)

theorem mkTokenParams_keys (cb : UrlQuery) (signed : String) (key : String) :
    (∃ p ∈ mkTokenParams cb signed, p.1 = key) ↔
      ∃ n ∈ splitComma signed, "openid." ++ n = key := by
  rw [← getParam_isSome_iff, getParam_mkTokenParams]
  by_cases h : ∃ n ∈ splitComma signed, "openid." ++ n = key <;> simp [h]

/-- Spread of a record whose values are a function of their key. -/
theorem getParam_spreadInto (f : String → String) (tp : List (String × String))
    (base : UrlQuery) (hv : ∀ p ∈ tp, p.2 = f p.1) (key : String) :
    getParam (spreadInto base tp) key =
      if ∃ p ∈ tp, p.1 = key then some (f key) else getParam base key := by
  induction tp generalizing base with
  | nil => simp [spreadInto]
  | cons e tp ih =>
    obtain ⟨k, w⟩ := e
    have hw : w = f k := hv (k, w) (by simp)
    have htp : ∀ p ∈ tp, p.2 = f p.1 := fun p hp => hv p (List.mem_cons_of_mem _ hp)
    have hsp : spreadInto base ((k, w) :: tp) = spreadInto (recordSet base k w) tp := rfl
    rw [hsp, ih (recordSet base k w) htp]
    by_cases hL : ∃ p ∈ tp, p.1 = key
    · rw [if_pos hL, if_pos (hL.imp fun p hp => ⟨List.mem_cons_of_mem _ hp.1, hp.2⟩)]
    · rw [if_neg hL, getParam_recordSet]
      by_cases hk : k = key
      · rw [if_pos hk, if_pos ⟨(k, w), List.mem_cons_self _ _, hk⟩, hw, hk]
      · have hx : ¬ ∃ p ∈ (k, w) :: tp, p.1 = key := by
          rintro ⟨p, hp, he⟩
          rcases List.mem_cons.mp hp with rfl | hmem
          · exact hk he
          · exact hL ⟨p, hmem, he⟩
        rw [if_neg hk, if_neg hx]

/-- The central characterisation of the outgoing verification request: a
key named by the signed list carries the callback value for that key
(empty string when absent), every other key carries the fixed base
entry. -/
theorem getParam_mkVerificationRequest (cb : UrlQuery) (key : String) :
    getParam (mkVerificationRequest cb) key =
      if ∃ n ∈ splitComma (signedOf cb), "openid." ++ n = key
      then some ((getParam cb key).getD "")
      else getParam (baseVerifyParams cb (signedOf cb)) key := by
  rw [mkVerificationRequest]
  rw [getParam_spreadInto (fun k => (getParam cb k).getD "") _ _
    (mkTokenParams_val cb (signedOf cb))]
  rw [if_congr (mkTokenParams_keys cb (signedOf cb) key) rfl rfl]

theorem openid_append_inj {m n : String} (h : "openid." ++ m = "openid." ++ n) : m = n := by
  have h2 : ("openid." ++ m).data = ("openid." ++ n).data := congrArg String.data h
  simp only [String.data_append] at h2
  exact String.ext (List.append_cancel_left h2)

theorem matchIdentifier_ne_empty {s id : String} (h : matchIdentifier s = some id) :
    id ≠ "" := by
  unfold matchIdentifier at h
  split at h
  · simp at h
  · split at h
    · simp at h
    · split at h
      · rename_i ds heq hcond
        have hid : String.mk ds = id := by injection h
        intro he
        rw [← hid] at he
        have hds : ds = [] := by simpa using congrArg String.data he
        subst hds
        simp at hcond
      · simp at h

theorem verify_result_some {cb : UrlQuery} {body id : String}
    (h : (verifyAssertion (some cb) body).result = some id) :
    matchIsValid body = true ∧
    Option.bind (getParam (mkVerificationRequest cb) "openid.claimed_id") matchIdentifier
      = some id := by
  by_cases hv : matchIsValid body
  · refine ⟨hv, ?_⟩
    simp only [verifyAssertion, hv, if_true] at h
    rcases hg : getParam (mkVerificationRequest cb) "openid.claimed_id" with _ | c
    · rw [hg] at h; exact absurd h (by simp)
    · rw [hg] at h; simpa using h
  · exfalso
    simp [verifyAssertion, hv] at h

theorem verify_result_eq (cb : UrlQuery) (body : String) :
    (verifyAssertion (some cb) body).result =
      if matchIsValid body then
        Option.bind (getParam (mkVerificationRequest cb) "openid.claimed_id") matchIdentifier
      else none := by
  by_cases hv : matchIsValid body
  · simp only [verifyAssertion, hv, if_true]
    rcases h : getParam (mkVerificationRequest cb) "openid.claimed_id" with _ | c <;> simp [h]
  · simp [verifyAssertion, hv]

/-! ## The claims -/

/-- Claim C1: whenever the assertion verifier yields no identifier for a
callback URL, the token operation of the adapter raises `Unauthenticated`; and
whenever it does return a `TokenSet`, its provider id (`steamId`) is not
empty. -/
theorem token_raises_unauthenticated :
    (∀ (cb : UrlQuery) (body u1 u2 : String),
        (verifyAssertion (some cb) body).result = none →
        (tokenRequest (some cb) body u1 u2).1 = .error .unauthenticated) ∧
    (∀ (ru : Option UrlQuery) (body u1 u2 : String) (ts : TokenSet),
        (tokenRequest ru body u1 u2).1 = .ok ts → ts.steamId ≠ "") := by
  constructor
  · intro cb body u1 u2 h
    simp [tokenRequest, h]
  · intro ru body u1 u2 ts h
    match ru with
    | none => exact Except.noConfusion (h : Except.error AuthError.missingCallback = Except.ok ts)
    | some cb =>
      rw [tokenRequest] at h
      split at h
      · simp at h
      · rename_i ident heq
        simp only [Except.ok.injEq] at h
        obtain ⟨-, hbind⟩ := verify_result_some heq
        rcases ho : getParam (mkVerificationRequest cb) "openid.claimed_id" with _ | c
        · rw [ho] at hbind; simp at hbind
        · rw [ho] at hbind
          simp only [Option.some_bind] at hbind
          have hne := matchIdentifier_ne_empty hbind
          rw [← h]
          exact hne

/-- Witness for C1: a callback with no parameters and an empty response
body verifies to nothing and the token operation errors; a successful
token exchange yields the non-empty id 42. -/
theorem token_raises_unauthenticated_witness :
    (tokenRequest (some []) "" "" "").1 = Except.error AuthError.unauthenticated ∧
    ("42" : String) ≠ "" :=
  ⟨token_raises_unauthenticated.1 [] "" "" "" (by rfl),
   token_raises_unauthenticated.2
     (some [("openid.signed", "claimed_id"),
            ("openid.claimed_id", "https://steamcommunity.com/openid/id/42")])
     "is_valid:true" "" "" ⟨"", "", "42"⟩ (by rfl)⟩

/-- Claim C2: an identifier is returned only when the response body
matches `is_valid\s*:\s*true` (case-insensitively) and the
`openid.claimed_id` of the outgoing verification request matches
`https?://steamcommunity.com/openid/id/(\d+)` with the identifier as the
captured digits; in particular the claimed id
`https://evil.example/openid/id/123` yields no identifier even for a
valid body. -/
theorem verify_identifier_invariant :
    (∀ (cb : UrlQuery) (body id : String),
        (verifyAssertion (some cb) body).result = some id →
        matchIsValid body = true ∧
        Option.bind (getParam (mkVerificationRequest cb) "openid.claimed_id") matchIdentifier
          = some id) ∧
    (verifyAssertion
        (some [("openid.signed", "claimed_id"),
               ("openid.claimed_id", "https://evil.example/openid/id/123")])
        "is_valid:true").result = none :=
  ⟨fun _ _ _ h => verify_result_some h, by rfl⟩

/-- Witness for C2: a steamcommunity claimed id under a valid body
produces the captured digits. -/
theorem verify_identifier_invariant_witness :
    matchIsValid "is_valid:true" = true ∧
    Option.bind
      (getParam (mkVerificationRequest
          [("openid.signed", "claimed_id"),
           ("openid.claimed_id", "https://steamcommunity.com/openid/id/123")])
        "openid.claimed_id") matchIdentifier = some "123" :=
  verify_identifier_invariant.1
    [("openid.signed", "claimed_id"),
     ("openid.claimed_id", "https://steamcommunity.com/openid/id/123")]
    "is_valid:true" "123" (by rfl)

/-- Claim C3: every name in a non-empty signed field list appears in the
outgoing verification request under `openid.` + name, with the value from
the callback, or the empty string when the callback lacks that parameter — never
omitted. -/
theorem signed_fields_copied :
    ∀ (cb : UrlQuery) (s n : String),
      getParam cb "openid.signed" = some s → s ≠ "" →
      n ∈ splitComma s →
      getParam (mkVerificationRequest cb) ("openid." ++ n)
        = some ((getParam cb ("openid." ++ n)).getD "") := by
  intro cb s n hs _ hn
  have hsigned : signedOf cb = s := by simp [signedOf, hs]
  rw [getParam_mkVerificationRequest, hsigned, if_pos ⟨n, hn, rfl⟩]

/-- Witness for C3: with signed list `a,b` and no `openid.b` parameter in
the callback, `openid.b` is still present, as the empty string. -/
theorem signed_fields_copied_witness :
    getParam (mkVerificationRequest [("openid.signed", "a,b")]) ("openid." ++ "b")
      = some ((getParam [("openid.signed", "a,b")] ("openid." ++ "b")).getD "") :=
  signed_fields_copied [("openid.signed", "a,b")] "a,b" "b" (by rfl) (by decide) (by decide)

/-- Counterexample to C4: for a callback without `openid.signed` the
outgoing verification request is NOT limited to the five fixed keys: the
degenerate key `openid.` (from splitting the empty string) is present
too. -/
theorem missing_signed_counterexample :
    getParam ([] : UrlQuery) "openid.signed" = none ∧
    getParam (mkVerificationRequest []) "openid." = some "" :=
  ⟨rfl, by rfl⟩

/-- Claim C4 as amended: for every callback URL whose query lacks
`openid.signed`, the parameter set of the outgoing verification request is
exactly the five fixed keys PLUS the degenerate key `openid.` (the empty
signed list splits to `[""]`, echoing a field with empty name, copied as
the empty string). -/
theorem missing_signed_request_keys :
    ∀ (cb : UrlQuery) (key : String),
      getParam cb "openid.signed" = none →
      ((getParam (mkVerificationRequest cb) key).isSome ↔
        key ∈ ["openid.assoc_handle", "openid.signed", "openid.sig",
               "openid.ns", "openid.mode", "openid."]) := by
  intro cb key h
  have hsigned : signedOf cb = "" := by simp [signedOf, h]
  rw [getParam_mkVerificationRequest, hsigned]
  have hsplit : splitComma "" = [""] := rfl
  rw [hsplit]
  by_cases hk : key = "openid."
  · subst hk
    rw [if_pos ⟨"", by simp, by rfl⟩]
    simp
  · rw [if_neg (by
      rintro ⟨n, hn, he⟩
      simp only [List.mem_singleton] at hn
      subst hn
      exact hk (by rw [← he]; rfl))]
    rw [getParam_isSome_iff]
    simp [baseVerifyParams, hk, eq_comm]

/-- Witness for C4 (amended): the callback with empty query. -/
theorem missing_signed_request_keys_witness :
    (getParam (mkVerificationRequest []) "openid.").isSome ↔
      "openid." ∈ ["openid.assoc_handle", "openid.signed", "openid.sig",
        "openid.ns", "openid.mode", "openid."] :=
  missing_signed_request_keys [] "openid." rfl

/-- Counterexample to C5: a signed list containing `mode` makes the
callback value of `openid.mode` override `check_authentication` in the
outgoing verification request, because `...token_params` is spread after
the fixed entries. -/
theorem fixed_mode_counterexample :
    getParam (mkVerificationRequest [("openid.signed", "mode"), ("openid.mode", "id_res")])
        "openid.mode" = some "id_res" ∧
    ("id_res" : String) ≠ "check_authentication" :=
  ⟨by rfl, by decide⟩

/-- Claim C5 as amended: the outgoing verification request has
`openid.mode = check_authentication` and
`openid.ns = http://specs.openid.net/auth/2.0` provided the signed field
list of the callback names neither `mode` nor `ns`; a signed list naming
them overrides the fixed entries with the callback values. -/
theorem fixed_mode_ns_unless_signed :
    ∀ cb : UrlQuery,
      "mode" ∉ splitComma (signedOf cb) →
      "ns" ∉ splitComma (signedOf cb) →
      getParam (mkVerificationRequest cb) "openid.mode" = some "check_authentication" ∧
      getParam (mkVerificationRequest cb) "openid.ns"
        = some "http://specs.openid.net/auth/2.0" := by
  intro cb hm hn
  constructor
  · rw [getParam_mkVerificationRequest, if_neg (by
      rintro ⟨n, hn2, he⟩
      have he' : "openid." ++ n = "openid." ++ "mode" := he
      exact hm (openid_append_inj he' ▸ hn2))]
    rfl
  · rw [getParam_mkVerificationRequest, if_neg (by
      rintro ⟨n, hn2, he⟩
      have he' : "openid." ++ n = "openid." ++ "ns" := he
      exact hn (openid_append_inj he' ▸ hn2))]
    rfl

/-- Witness for C5 (amended): a typical signed list that names neither
`mode` nor `ns`. -/
theorem fixed_mode_ns_unless_signed_witness :
    getParam (mkVerificationRequest [("openid.signed", "claimed_id")]) "openid.mode"
      = some "check_authentication" ∧
    getParam (mkVerificationRequest [("openid.signed", "claimed_id")]) "openid.ns"
      = some "http://specs.openid.net/auth/2.0" :=
  fixed_mode_ns_unless_signed [("openid.signed", "claimed_id")] (by decide) (by decide)

/-- Claim C6: a callback whose signed list names `claimed_id` and which
carries the claimed id
`https://steamcommunity.com/openid/id/76561197960287930`, together with a
body matching `is_valid:true`, verifies to the identifier
`76561197960287930`; the claimed id is read from the outgoing
verification request, not from the raw callback — a callback carrying the
claimed id outside the signed list verifies to nothing. -/
theorem roundtrip_identifier :
    (∀ (cb : UrlQuery) (body s : String),
        getParam cb "openid.signed" = some s →
        "claimed_id" ∈ splitComma s →
        getParam cb "openid.claimed_id"
          = some "https://steamcommunity.com/openid/id/76561197960287930" →
        matchIsValid body = true →
        (verifyAssertion (some cb) body).result = some "76561197960287930") ∧
    (verifyAssertion (some [("openid.claimed_id",
        "https://steamcommunity.com/openid/id/76561197960287930")]) "is_valid:true").result
      = none := by
  constructor
  · intro cb body s hs hmem hcid hv
    have hsigned : signedOf cb = s := by simp [signedOf, hs]
    have hkey : getParam (mkVerificationRequest cb) "openid.claimed_id"
        = some "https://steamcommunity.com/openid/id/76561197960287930" := by
      rw [getParam_mkVerificationRequest, hsigned, if_pos ⟨"claimed_id", hmem, rfl⟩, hcid]
      rfl
    rw [verify_result_eq, if_pos hv, hkey]
    rfl
  · rfl

/-- Witness for C6. -/
theorem roundtrip_identifier_witness :
    (verifyAssertion (some [("openid.signed", "claimed_id"),
        ("openid.claimed_id", "https://steamcommunity.com/openid/id/76561197960287930")])
      "is_valid:true").result = some "76561197960287930" :=
  roundtrip_identifier.1
    [("openid.signed", "claimed_id"),
     ("openid.claimed_id", "https://steamcommunity.com/openid/id/76561197960287930")]
    "is_valid:true" "claimed_id" (by rfl) (by decide) (by rfl) (by rfl)

/-- Claim C7: a response body not matching `is_valid\s*:\s*true`
(case-insensitively) makes the verifier return no identifier and raise no
fault: the verification POST is made and the returned value is null, the
benign negative outcome. -/
theorem invalid_body_benign :
    ∀ (cb : UrlQuery) (body : String),
      matchIsValid body = false →
      verifyAssertion (some cb) body = ⟨some (mkVerificationRequest cb), none⟩ := by
  intro cb body h
  simp [verifyAssertion, h]

/-- Witness for C7: the body `is_valid:false`. -/
theorem invalid_body_benign_witness :
    verifyAssertion (some []) "is_valid:false" = ⟨some (mkVerificationRequest []), none⟩ :=
  invalid_body_benign [] "is_valid:false" (by decide)

/-- Claim C8: adapter construction never issues a network request, and
with an absent or empty API key it fails with the configuration error
(`missingCredential`, the "Steam API key is missing" throw). -/
theorem construct_missing_credential :
    (∀ (cb : UrlParts) (secret : Option String), (SteamConstruct cb secret).2 = []) ∧
    (∀ (cb : UrlParts) (secret : Option String),
        secret = none ∨ secret = some "" →
        (SteamConstruct cb secret).1 = .error .missingCredential) := by
  constructor
  · intro cb secret
    match secret with
    | none => rfl
    | some s =>
      rw [SteamConstruct]
      split <;> rfl
  · rintro cb secret (rfl | rfl) <;> rfl

/-- Witness for C8: construction with the empty API key. -/
theorem construct_missing_credential_witness :
    (SteamConstruct ⟨"http://localhost:3000/api/auth/callback", "http://localhost:3000"⟩
        (some "")).1 = Except.error AuthError.missingCredential ∧
    (SteamConstruct ⟨"http://localhost:3000/api/auth/callback", "http://localhost:3000"⟩
        (some "")).2 = [] :=
  ⟨construct_missing_credential.2 _ (some "") (Or.inr rfl),
   construct_missing_credential.1 _ (some "")⟩

/-- Claim C9 (documents the code bug): with an empty players collection
the userinfo operation returns JavaScript `undefined`
(`players[0]` of an empty array, here `none`) and raises no error, instead
of failing with a `ProfileFetchError` as specified. -/
theorem userinfo_empty_players_returns_undefined :
    ∀ key sid : String,
      userinfoRequest key sid ⟨[]⟩ = (none, [("key", key), ("steamids", sid)]) := by
  intro key sid
  rfl

/-- Counterexample to C10: on an absent/empty callback URL the verifier
itself does not fail with a distinguishable MissingCallback error — it
returns the very same null result as a benign negative verification
(compare a real callback with an `is_valid:false` body), though indeed
without issuing a POST. -/
theorem missing_callback_counterexample :
    verifyAssertion none "is_valid:true" = ⟨none, none⟩ ∧
    (verifyAssertion (some [("openid.signed", "claimed_id"),
        ("openid.claimed_id", "https://steamcommunity.com/openid/id/1")])
      "is_valid:false").result = none :=
  ⟨rfl, by decide⟩

/-- Claim C10 as amended: on an absent or empty callback URL the verifier
returns null (the benign no-identifier value) and issues no verification
POST; the MissingCallback failure ("No URL found in request object") is
raised by the token operation of the adapter, which checks the URL before
invoking the verifier, so no POST is issued on that path either. -/
theorem missing_callback_token_level :
    (∀ body : String, verifyAssertion none body = ⟨none, none⟩) ∧
    (∀ body u1 u2 : String,
        tokenRequest none body u1 u2 = (.error .missingCallback, none)) :=
  ⟨fun _ => rfl, fun _ _ _ => rfl⟩
